import Mathlib

/-
Verification of the Discord DM CRM bot service (discord-bot/index.js)
against its specification.

The embedding models the message store (Supabase `messages` table with its
UNIQUE constraint on `discord_message_id`), the per-account bot session
(`DiscordCRMBot`), and the registry (`BotManager`).  Network and database
effects are made explicit: backend responses, start outcomes and the
current store are passed in as arguments, and each operation returns its
result together with the updated store.
-/

set_option autoImplicit false

namespace DiscordCRM

/-- A Discord user as seen through the client cache (id, username, avatar hash). -/
structure User where
  id : String
  username : String
  avatar : Option String
  deriving DecidableEq, Repr

/-- Channel types; the bot only processes direct-message channels. -/
inductive ChannelType where
  | DM
  | other
  deriving DecidableEq, Repr

/-- A channel from the client cache.  `recipient` is the DM peer. -/
structure Channel where
  id : String
  type : ChannelType
  recipient : User
  deriving DecidableEq, Repr

/-- A raw Discord message event (live stream or history fetch).
`createdAt` is the creation instant (epoch units); `system` flags
non-user messages. -/
structure DiscordMessage where
  id : String
  authorId : String
  authorUsername : String
  authorAvatar : Option String
  content : String
  system : Bool
  createdAt : Nat
  deriving DecidableEq, Repr

/-- Message direction, `direction TEXT CHECK (direction IN ('sent','received'))`. -/
inductive Direction where
  | sent
  | received
  deriving DecidableEq, Repr

/-- A row of the `messages` table. -/
structure MessageRow where
  account_id : String
  discord_message_id : String
  discord_user_id : String
  username : String
  avatar : Option String
  direction : Direction
  content : String
  timestamp : Nat
  deriving DecidableEq, Repr

/-- The avatar URL built by the bot from a user id and avatar hash. -/
def avatarUrl (userId : String) (hash : String) : String :=
  "https://cdn.discordapp.com/avatars/" ++ userId ++ "/" ++ hash ++ ".png"

/-- The message store: the `messages` table as a list of rows in insertion order. -/
abbrev Store := List MessageRow

/-- Does the store already hold a row with this `discord_message_id`? -/
def hasId (store : Store) (id : String) : Bool :=
  store.any (fun r => r.discord_message_id = id)

/-- Storage-layer insert errors. -/
inductive InsertError where
  | uniqueViolation
  deriving DecidableEq, Repr

/-- Insert into the `messages` table.  The schema declares
`discord_message_id TEXT UNIQUE`, so an insert whose id is already present
is rejected with a constraint-violation error; otherwise the row is appended. -/
def insertMessage (store : Store) (row : MessageRow) : Except InsertError Store :=
  if hasId store row.discord_message_id then
    .error .uniqueViolation
  else
    .ok (store ++ [row])

/-- The row built by `DiscordCRMBot.recordMessage`: `otherUser` is the channel
recipient when the message is from this account, else the author; direction is
`sent` exactly when the author is this account's user. -/
def recordMessageRow (accountId selfId : String) (channel : Channel)
    (m : DiscordMessage) : MessageRow :=
  let isFromBot := m.authorId = selfId
  let otherUser : User :=
    if isFromBot then channel.recipient
    else { id := m.authorId, username := m.authorUsername, avatar := m.authorAvatar }
  { account_id := accountId
    discord_message_id := m.id
    discord_user_id := otherUser.id
    username := otherUser.username
    avatar := otherUser.avatar.map (avatarUrl otherUser.id)
    direction := if isFromBot then .sent else .received
    content := m.content
    timestamp := m.createdAt }

/-- `DiscordCRMBot.recordMessage`: builds the row and inserts it; a storage
error is thrown to the caller (`if (error) throw error`). -/
def recordMessage (accountId selfId : String) (channel : Channel)
    (m : DiscordMessage) (store : Store) : Except InsertError Store :=
  insertMessage store (recordMessageRow accountId selfId channel m)

/-- The `messageCreate` handler: ignores non-DM channels, drops messages
authored by this account, then calls `recordMessage` inside a try/catch that
logs and swallows any error (the store is left unchanged on error). -/
def handleMessageCreate (accountId selfId : String) (channel : Channel)
    (m : DiscordMessage) (store : Store) : Store :=
  if channel.type ≠ ChannelType.DM then store
  else if m.authorId = selfId then store
  else
    match recordMessage accountId selfId channel m store with
    | .ok store' => store'
    | .error _ => store

/-- The live persist path viewed as a store transformer: `recordMessage`
under the event handler's try/catch. -/
def recordMessageCaught (accountId selfId : String) (channel : Channel)
    (m : DiscordMessage) (store : Store) : Store :=
  match recordMessage accountId selfId channel m store with
  | .ok store' => store'
  | .error _ => store

/-- Does `fetchExistingDMs` keep this fetched message?  It skips empty
content and system messages (`if (!message.content || message.system) continue`). -/
def keepInImport (m : DiscordMessage) : Bool :=
  !(m.content = "") && !m.system

/-- The row built by the history-import loop in `fetchExistingDMs`:
peer fields always come from the channel recipient; direction is `sent`
exactly when the author is this account's user. -/
def importRow (accountId selfId : String) (channel : Channel)
    (m : DiscordMessage) : MessageRow :=
  { account_id := accountId
    discord_message_id := m.id
    discord_user_id := channel.recipient.id
    username := channel.recipient.username
    avatar := channel.recipient.avatar.map (avatarUrl channel.recipient.id)
    direction := if m.authorId = selfId then .sent else .received
    content := m.content
    timestamp := m.createdAt }

/-- One iteration of the history-import loop: skip empty/system messages,
skip a message already in the database (the `.eq('discord_message_id', ...)`
dedupe check), otherwise insert; an insert error is logged and the message
skipped. -/
def importStep (accountId selfId : String) (channel : Channel)
    (m : DiscordMessage) (store : Store) : Store :=
  if !keepInImport m then store
  else if hasId store m.id then store
  else
    match insertMessage store (importRow accountId selfId channel m) with
    | .ok store' => store'
    | .error _ => store

/-- `fetchExistingDMs`, one DM channel: the fetched page arrives
newest-first and is reversed to chronological order
(`Array.from(messages.values()).reverse()`), then each message runs
through `importStep`. -/
def processChannel (accountId selfId : String) (channel : Channel)
    (pageNewestFirst : List DiscordMessage) (store : Store) : Store :=
  pageNewestFirst.reverse.foldl
    (fun s m => importStep accountId selfId channel m s) store

/-! ## Outbound send path -/

/-- The backend-assigned message data echoed in a successful send response
(`messageData` parsed from the Discord API response). -/
structure SentPayload where
  id : String
  content : String
  timestamp : Option Nat
  deriving DecidableEq, Repr

/-- The backend's response to the send request: either OK with the message
payload, or a non-ok HTTP status with the error message taken from
`errorData.message || response.statusText`. -/
inductive SendResponse where
  | success (payload : SentPayload)
  | failure (status : Nat) (message : String)
  deriving DecidableEq, Repr

/-- The message of the error thrown on a non-ok response:
`Discord API error ${response.status}: ${errorData.message || response.statusText}`. -/
def apiErrorMessage (status : Nat) (message : String) : String :=
  "Discord API error " ++ toString status ++ ": " ++ message

/-- The value returned by `DiscordCRMBot.sendMessage` on success. -/
structure SendResult where
  messageId : String
  content : String
  deriving DecidableEq, Repr

/-- The row built by `DiscordCRMBot.recordSentMessage` for the DM recipient:
direction is always `'sent'`, the timestamp is the backend's if present and
the current time otherwise. -/
def sentRow (accountId : String) (recipient : User) (payload : SentPayload)
    (now : Nat) : MessageRow :=
  { account_id := accountId
    discord_message_id := payload.id
    discord_user_id := recipient.id
    username := recipient.username
    avatar := recipient.avatar.map (avatarUrl recipient.id)
    direction := .sent
    content := payload.content
    timestamp := payload.timestamp.getD now }

/-- `DiscordCRMBot.recordSentMessage`: looks the channel up in the client
cache; if it is missing or not a DM it logs and returns without recording;
otherwise it builds a `sent`-direction row for the channel recipient and
inserts it, rethrowing a storage error. -/
def recordSentMessage (accountId : String) (channels : List Channel)
    (payload : SentPayload) (channelId : String) (now : Nat)
    (store : Store) : Except InsertError Store :=
  match channels.find? (fun c => c.id = channelId) with
  | none => .ok store
  | some channel =>
    if channel.type ≠ ChannelType.DM then .ok store
    else insertMessage store (sentRow accountId channel.recipient payload now)

/-- `DiscordCRMBot.sendMessage`: a non-ok backend response throws the
`Discord API error ...` message; on success the sent message is recorded,
with any recording error caught and logged (the send still succeeds), and
`{messageId, content}` echoed from the backend payload is returned. -/
def botSendMessage (accountId : String) (channels : List Channel)
    (channelId content : String) (response : SendResponse) (now : Nat)
    (store : Store) : Except String (SendResult × Store) :=
  match response with
  | .failure status message => .error (apiErrorMessage status message)
  | .success payload =>
    let store' :=
      match recordSentMessage accountId channels payload channelId now store with
      | .ok s => s
      | .error _ => store
    .ok ({ messageId := payload.id, content := payload.content }, store')

/-! ## Registry (`BotManager`) -/

/-- The runtime state of one bot session held in the registry. -/
structure BotState where
  token : String
  selfId : String
  channels : List Channel
  deriving DecidableEq, Repr

/-- The registry mapping account_id → bot (`this.bots`), in insertion order. -/
abbrev Registry := List (String × BotState)

/-- Is a bot registered for this account id? -/
def hasBot (bots : Registry) (accountId : String) : Bool :=
  bots.any (fun b => b.1 = accountId)

/-- Outcome of `DiscordCRMBot.start` (login): success, or a thrown error. -/
inductive StartOutcome where
  | ok
  | fail (message : String)
  deriving DecidableEq, Repr

/-- `BotManager.addBot`: if a bot for the account already exists, log a
warning and return (no error, registry untouched); otherwise construct the
bot and `start()` it — a startup failure propagates before the registry is
written — and only then register it. -/
def addBot (bots : Registry) (accountId : String) (bot : BotState)
    (start : StartOutcome) : Except String Registry :=
  if hasBot bots accountId then .ok bots
  else
    match start with
    | .fail message => .error message
    | .ok => .ok (bots ++ [(accountId, bot)])

/-- The registry after an `addBot` call: on a thrown startup error the
mapping is left as it was. -/
def addBotState (bots : Registry) (accountId : String) (bot : BotState)
    (start : StartOutcome) : Registry :=
  match addBot bots accountId bot start with
  | .ok bots' => bots'
  | .error _ => bots

/-- `BotManager.removeBot`: if a bot is registered for the id, stop it and
delete the mapping; otherwise do nothing.  Always returns normally. -/
def removeBot (bots : Registry) (accountId : String) : Registry :=
  match bots.find? (fun b => b.1 = accountId) with
  | some _ => bots.filter (fun b => b.1 ≠ accountId)
  | none => bots

/-- Errors thrown by `BotManager.sendMessage`, one constructor per throw
site: the explicit `No bot found for account ...` throw, a failed
`users.fetch`/`createDM`, or an error propagated from
`DiscordCRMBot.sendMessage`. -/
inductive ManagerError where
  | notFound (accountId : String)
  | fetchUserFailed (message : String)
  | sendFailed (message : String)
  deriving DecidableEq, Repr

/-- Outcome of `bot.client.users.fetch(userId)` followed by
`user.createDM()`: either the resolved user's profile fields plus the DM
channel id, or a thrown error. -/
inductive FetchDM where
  | found (username : String) (avatar : Option String) (dmChannelId : String)
  | failed (message : String)
  deriving DecidableEq, Repr

/-- `createDM` caches the resolved DM channel in the client's channel cache
(replacing any entry with the same id). -/
def cacheChannel (channels : List Channel) (channel : Channel) : List Channel :=
  if channels.any (fun c => c.id = channel.id) then
    channels.map (fun c => if c.id = channel.id then channel else c)
  else channels ++ [channel]

/-- `BotManager.sendMessage`: throws `No bot found for account ...` when the
account has no registered bot; otherwise fetches the user, creates the DM
channel and delegates to `DiscordCRMBot.sendMessage`, rethrowing any error. -/
def managerSendMessage (bots : Registry) (accountId userId content : String)
    (fetch : FetchDM) (response : SendResponse) (now : Nat)
    (store : Store) : Except ManagerError (SendResult × Store) :=
  match bots.find? (fun b => b.1 = accountId) with
  | none => .error (.notFound accountId)
  | some (_, bot) =>
    match fetch with
    | .failed message => .error (.fetchUserFailed message)
    | .found username avatar dmChannelId =>
      let user : User := { id := userId, username := username, avatar := avatar }
      let dmChannel : Channel :=
        { id := dmChannelId, type := ChannelType.DM, recipient := user }
      let channels' := cacheChannel bot.channels dmChannel
      match botSendMessage accountId channels' dmChannelId content response now store with
      | .ok result => .ok result
      | .error message => .error (.sendFailed message)

/-! ## Derived counting and invariant notions -/

/-- Number of rows stored under the dedupe key `(account_id, discord_message_id)`. -/
def countPair (store : Store) (a id : String) : Nat :=
  (store.filter (fun r => decide (r.account_id = a ∧ r.discord_message_id = id))).length

/-- Number of registry entries for an account id. -/
def countBot (bots : Registry) (a : String) : Nat :=
  (bots.filter (fun b => b.1 = a)).length

/-- The store never holds two rows with the same `discord_message_id`
(the schema's UNIQUE constraint; it implies uniqueness of the pair
`(account_id, discord_message_id)`). -/
def uniqueIds (store : Store) : Prop :=
  store.Pairwise (fun r s => r.discord_message_id ≠ s.discord_message_id)

/-- Is a `sent`-direction row with this dedupe key in the store? -/
def hasSentMessage (store : Store) (a id : String) : Bool :=
  store.any (fun r =>
    decide (r.account_id = a ∧ r.discord_message_id = id ∧ r.direction = Direction.sent))

/-! ## Basic lemmas about the store -/

theorem hasId_false_iff {store : Store} {id : String} :
    hasId store id = false ↔ ∀ r ∈ store, r.discord_message_id ≠ id := by
  simp [hasId]

theorem hasId_append {store : Store} {row : MessageRow} {id : String} :
    hasId (store ++ [row]) id = (hasId store id || decide (row.discord_message_id = id)) := by
  simp [hasId]

theorem insertMessage_fresh {store : Store} {row : MessageRow}
    (h : hasId store row.discord_message_id = false) :
    insertMessage store row = .ok (store ++ [row]) := by
  simp [insertMessage, h]

theorem insertMessage_dup {store : Store} {row : MessageRow}
    (h : hasId store row.discord_message_id = true) :
    insertMessage store row = .error .uniqueViolation := by
  simp [insertMessage, h]

theorem recordMessageRow_id (a self : String) (ch : Channel) (m : DiscordMessage) :
    (recordMessageRow a self ch m).discord_message_id = m.id := by
  simp [recordMessageRow]

theorem recordMessageRow_account (a self : String) (ch : Channel) (m : DiscordMessage) :
    (recordMessageRow a self ch m).account_id = a := by
  simp [recordMessageRow]

theorem importRow_id (a self : String) (ch : Channel) (m : DiscordMessage) :
    (importRow a self ch m).discord_message_id = m.id := by
  simp [importRow]

theorem importRow_account (a self : String) (ch : Channel) (m : DiscordMessage) :
    (importRow a self ch m).account_id = a := by
  simp [importRow]

theorem recordMessage_ok {a self : String} {ch : Channel} {m : DiscordMessage}
    {store store' : Store} (h : recordMessage a self ch m store = Except.ok store') :
    store' = store ++ [recordMessageRow a self ch m] := by
  unfold recordMessage at h
  cases hc : hasId store (recordMessageRow a self ch m).discord_message_id with
  | true => rw [insertMessage_dup hc] at h; cases h
  | false => rw [insertMessage_fresh hc] at h; exact (Except.ok.inj h).symm

theorem recordMessage_dup {a self : String} {ch : Channel} {m : DiscordMessage}
    {store : Store} (h : hasId store m.id = true) :
    recordMessage a self ch m store = Except.error InsertError.uniqueViolation := by
  unfold recordMessage
  exact insertMessage_dup (by rw [recordMessageRow_id]; exact h)

theorem recordMessageCaught_fresh {a self : String} {ch : Channel} {m : DiscordMessage}
    {store : Store} (h : hasId store m.id = false) :
    recordMessageCaught a self ch m store = store ++ [recordMessageRow a self ch m] := by
  unfold recordMessageCaught recordMessage
  rw [insertMessage_fresh (by rw [recordMessageRow_id]; exact h)]

theorem recordMessageCaught_dup {a self : String} {ch : Channel} {m : DiscordMessage}
    {store : Store} (h : hasId store m.id = true) :
    recordMessageCaught a self ch m store = store := by
  unfold recordMessageCaught
  rw [recordMessage_dup h]

theorem importStep_fresh {a self : String} {ch : Channel} {m : DiscordMessage}
    {store : Store} (hkeep : keepInImport m = true) (h : hasId store m.id = false) :
    importStep a self ch m store = store ++ [importRow a self ch m] := by
  have hrow : hasId store (importRow a self ch m).discord_message_id = false := by
    rw [importRow_id]; exact h
  simp [importStep, hkeep, h, insertMessage_fresh hrow]

theorem importStep_dup {a self : String} {ch : Channel} {m : DiscordMessage}
    {store : Store} (h : hasId store m.id = true) :
    importStep a self ch m store = store := by
  simp only [importStep]
  split
  · rfl
  · simp [h]

theorem importStep_skip {a self : String} {ch : Channel} {m : DiscordMessage}
    {store : Store} (hkeep : keepInImport m = false) :
    importStep a self ch m store = store := by
  simp [importStep, hkeep]

theorem importStep_cases (a self : String) (ch : Channel) (m : DiscordMessage)
    (store : Store) :
    importStep a self ch m store = store
    ∨ importStep a self ch m store = store ++ [importRow a self ch m] := by
  cases hkeep : keepInImport m with
  | false => exact Or.inl (importStep_skip hkeep)
  | true =>
    cases h : hasId store m.id with
    | true => exact Or.inl (importStep_dup h)
    | false => exact Or.inr (importStep_fresh hkeep h)

theorem hasBot_false_iff {bots : Registry} {a : String} :
    hasBot bots a = false ↔ ∀ b ∈ bots, b.1 ≠ a := by
  simp [hasBot]

theorem find?_bot_none {bots : Registry} {a : String} (h : hasBot bots a = false) :
    bots.find? (fun b => b.1 = a) = none := by
  rw [List.find?_eq_none]
  intro b hb
  simpa using hasBot_false_iff.mp h b hb

/-! ## Sample values used in witnesses -/

def sampleUser : User :=
  { id := "peer1", username := "alice", avatar := none }

def sampleChannel : Channel :=
  { id := "chan1", type := ChannelType.DM, recipient := sampleUser }

def sampleMsg : DiscordMessage :=
  { id := "m1", authorId := "peer1", authorUsername := "alice", authorAvatar := none
    content := "hi", system := false, createdAt := 100 }

def sampleBot : BotState :=
  { token := "tok", selfId := "self1", channels := [sampleChannel] }

/-! ## C10: the live path only stores received-direction rows -/

/-- C10: every Message row inserted by the live inbound event path has
direction `received`: the `messageCreate` handler drops every event whose
author id equals the session's own user id before persisting, so any row in
the post-handler store is either pre-existing or has direction `received`. -/
theorem live_path_only_received (accountId selfId : String) (ch : Channel)
    (m : DiscordMessage) (store : Store) (r : MessageRow)
    (hr : r ∈ handleMessageCreate accountId selfId ch m store) :
    r ∈ store ∨ r.direction = Direction.received := by
  unfold handleMessageCreate at hr
  split at hr
  · exact Or.inl hr
  · split at hr
    · exact Or.inl hr
    · rename_i hdm hself
      cases hrec : recordMessage accountId selfId ch m store with
      | error e => rw [hrec] at hr; exact Or.inl hr
      | ok store' =>
        rw [hrec] at hr
        simp only at hr
        rw [recordMessage_ok hrec] at hr
        rcases List.mem_append.mp hr with h | h
        · exact Or.inl h
        · refine Or.inr ?_
          rcases List.mem_singleton.mp h with rfl
          simp [recordMessageRow, hself]

/-- Witness for C10 at a concrete inbound DM from a peer. -/
theorem live_path_only_received_witness :
    recordMessageRow "a1" "self1" sampleChannel sampleMsg
        ∈ handleMessageCreate "a1" "self1" sampleChannel sampleMsg []
    ∧ (recordMessageRow "a1" "self1" sampleChannel sampleMsg ∈ ([] : Store)
        ∨ (recordMessageRow "a1" "self1" sampleChannel sampleMsg).direction
            = Direction.received) :=
  ⟨by decide, live_path_only_received "a1" "self1" sampleChannel sampleMsg []
    (recordMessageRow "a1" "self1" sampleChannel sampleMsg) (by decide)⟩

/-! ## C4: direction classification -/

/-- C4: an event persisted by `recordMessage` or by the history-import loop
is stored with direction `sent` exactly when the event author's id equals the
session's own user id, and `received` otherwise; on success the row the path
built is precisely the row appended to the store. -/
theorem direction_rule (a self : String) (ch : Channel) (m : DiscordMessage) :
    ((recordMessageRow a self ch m).direction = Direction.sent ↔ m.authorId = self)
    ∧ ((importRow a self ch m).direction = Direction.sent ↔ m.authorId = self)
    ∧ ((recordMessageRow a self ch m).direction = Direction.received ↔ m.authorId ≠ self)
    ∧ ((importRow a self ch m).direction = Direction.received ↔ m.authorId ≠ self)
    ∧ (∀ store store', recordMessage a self ch m store = Except.ok store' →
        store' = store ++ [recordMessageRow a self ch m])
    ∧ (∀ store, importStep a self ch m store = store
        ∨ importStep a self ch m store = store ++ [importRow a self ch m]) := by
  refine ⟨?_, ?_, ?_, ?_, ?_, ?_⟩
  · by_cases h : m.authorId = self <;> simp [recordMessageRow, h]
  · by_cases h : m.authorId = self <;> simp [importRow, h]
  · by_cases h : m.authorId = self <;> simp [recordMessageRow, h]
  · by_cases h : m.authorId = self <;> simp [importRow, h]
  · intro store store' hok
    exact recordMessage_ok hok
  · intro store
    exact importStep_cases a self ch m store

/-- Witness for C4: a peer-authored event is classified `received`. -/
theorem direction_rule_witness :
    (recordMessageRow "a1" "self1" sampleChannel sampleMsg).direction = Direction.received :=
  ((direction_rule "a1" "self1" sampleChannel sampleMsg).2.2.1).mpr (by decide)

/-! ## C6: registry idempotence -/

/-- C6: adding a session twice for the same account id leaves exactly one
registry entry and raises no error (the second `addBot` returns before
starting anything), and removing an unregistered account id is a no-op that
returns normally. -/
theorem registry_idempotence :
    (∀ (bots : Registry) (a : String) (b1 b2 : BotState) (st2 : StartOutcome),
      hasBot bots a = false →
      addBot bots a b1 StartOutcome.ok = Except.ok (bots ++ [(a, b1)])
      ∧ addBot (bots ++ [(a, b1)]) a b2 st2 = Except.ok (bots ++ [(a, b1)])
      ∧ countBot (bots ++ [(a, b1)]) a = 1)
    ∧ ∀ (bots : Registry) (a : String),
        hasBot bots a = false → removeBot bots a = bots := by
  constructor
  · intro bots a b1 b2 st2 h
    have h2 : hasBot (bots ++ [(a, b1)]) a = true := by
      simp [hasBot]
    refine ⟨by simp [addBot, h], by simp [addBot, h2], ?_⟩
    have hfe : bots.filter (fun b => b.1 = a) = [] := by
      apply List.filter_eq_nil_iff.mpr
      intro b hb
      simpa using hasBot_false_iff.mp h b hb
    simp [countBot, List.filter_append, hfe]
  · intro bots a h
    simp [removeBot, find?_bot_none h]

/-- Witness for C6: add the same account twice into an empty registry, and
remove an unknown account. -/
theorem registry_idempotence_witness :
    (addBot [] "a1" sampleBot StartOutcome.ok = Except.ok [("a1", sampleBot)]
      ∧ addBot [("a1", sampleBot)] "a1" sampleBot StartOutcome.ok
          = Except.ok [("a1", sampleBot)]
      ∧ countBot [("a1", sampleBot)] "a1" = 1)
    ∧ removeBot [("a1", sampleBot)] "a2" = [("a1", sampleBot)] :=
  ⟨registry_idempotence.1 [] "a1" sampleBot sampleBot StartOutcome.ok (by decide),
   registry_idempotence.2 [("a1", sampleBot)] "a2" (by decide)⟩

/-! ## C7: startup failure leaves the registry unchanged -/

/-- C7: when the session's `start()` fails, `addBot` propagates the error to
its caller and the account is not registered — the registry is exactly what
it was before the call. -/
theorem addSession_failure_unregistered (bots : Registry) (a : String)
    (b : BotState) (msg : String) (h : hasBot bots a = false) :
    addBot bots a b (StartOutcome.fail msg) = Except.error msg
    ∧ addBotState bots a b (StartOutcome.fail msg) = bots
    ∧ hasBot (addBotState bots a b (StartOutcome.fail msg)) a = false := by
  have h1 : addBot bots a b (StartOutcome.fail msg) = Except.error msg := by
    simp [addBot, h]
  refine ⟨h1, ?_, ?_⟩
  · simp [addBotState, h1]
  · simp [addBotState, h1, h]

/-- Witness for C7 at a concrete failing start. -/
theorem addSession_failure_unregistered_witness :
    addBot [] "a1" sampleBot (StartOutcome.fail "TokenInvalid") = Except.error "TokenInvalid"
    ∧ addBotState [] "a1" sampleBot (StartOutcome.fail "TokenInvalid") = []
    ∧ hasBot (addBotState [] "a1" sampleBot (StartOutcome.fail "TokenInvalid")) "a1" = false :=
  addSession_failure_unregistered [] "a1" sampleBot "TokenInvalid" (by decide)

/-! ## C1: dedupe idempotence across the live and import paths -/

/-- The two persist paths that can observe the same message: the live
`messageCreate` path (`recordMessage` under the handler's try/catch) and
the history-import loop of `fetchExistingDMs`. -/
inductive PersistPath where
  | live
  | importer
  deriving DecidableEq, Repr

/-- Persist one message via the given path, yielding the updated store. -/
def persistVia : PersistPath → String → String → Channel → DiscordMessage → Store → Store
  | .live, a, self, ch, m, store => recordMessageCaught a self ch m store
  | .importer, a, self, ch, m, store => importStep a self ch m store

/-- The row a path would write for a message. -/
def persistRow : PersistPath → String → String → Channel → DiscordMessage → MessageRow
  | .live, a, self, ch, m => recordMessageRow a self ch m
  | .importer, a, self, ch, m => importRow a self ch m

theorem persistRow_id (p : PersistPath) (a self : String) (ch : Channel)
    (m : DiscordMessage) : (persistRow p a self ch m).discord_message_id = m.id := by
  cases p <;> simp [persistRow, recordMessageRow_id, importRow_id]

theorem persistRow_account (p : PersistPath) (a self : String) (ch : Channel)
    (m : DiscordMessage) : (persistRow p a self ch m).account_id = a := by
  cases p <;> simp [persistRow, recordMessageRow_account, importRow_account]

theorem persistVia_fresh {a self : String} {ch : Channel} {m : DiscordMessage}
    {store : Store} (p : PersistPath)
    (hkeep : keepInImport m = true) (h : hasId store m.id = false) :
    persistVia p a self ch m store = store ++ [persistRow p a self ch m] := by
  cases p
  · exact recordMessageCaught_fresh h
  · exact importStep_fresh hkeep h

theorem persistVia_dup {a self : String} {ch : Channel} {m : DiscordMessage}
    {store : Store} (p : PersistPath) (h : hasId store m.id = true) :
    persistVia p a self ch m store = store := by
  cases p
  · exact recordMessageCaught_dup h
  · exact importStep_dup h

theorem countPair_append (store : Store) (row : MessageRow) (a id : String) :
    countPair (store ++ [row]) a id
      = countPair store a id
        + (if row.account_id = a ∧ row.discord_message_id = id then 1 else 0) := by
  by_cases h : row.account_id = a ∧ row.discord_message_id = id <;>
    simp [countPair, List.filter_append, h]

theorem countPair_eq_zero {store : Store} {a id : String}
    (h : hasId store id = false) : countPair store a id = 0 := by
  rw [countPair, List.length_eq_zero, List.filter_eq_nil_iff]
  intro r hr
  simp only [decide_eq_true_eq, not_and]
  intro _
  exact hasId_false_iff.mp h r hr

theorem uniqueIds_append {store : Store} {row : MessageRow}
    (h : hasId store row.discord_message_id = false) (hu : uniqueIds store) :
    uniqueIds (store ++ [row]) := by
  rw [uniqueIds, List.pairwise_append]
  refine ⟨hu, List.pairwise_singleton _ _, ?_⟩
  intro r hr r' hr'
  rcases List.mem_singleton.mp hr' with rfl
  exact hasId_false_iff.mp h r hr

/-- C1: persisting the same message twice — via any combination of the live
event path and the history-import path — leaves exactly one stored row for
the dedupe key `(account_id, discord_message_id)`, and preserves uniqueness
of `discord_message_id` (hence of the pair) as a store invariant. -/
theorem dedupe_idempotence (p1 p2 : PersistPath) (a self : String) (ch : Channel)
    (m : DiscordMessage) (store : Store)
    (hcontent : m.content ≠ "") (hsystem : m.system = false)
    (hfresh : hasId store m.id = false) :
    countPair (persistVia p2 a self ch m (persistVia p1 a self ch m store)) a m.id = 1
    ∧ (uniqueIds store →
        uniqueIds (persistVia p2 a self ch m (persistVia p1 a self ch m store))) := by
  have hkeep : keepInImport m = true := by
    simp [keepInImport, hcontent, hsystem]
  have h1 : persistVia p1 a self ch m store = store ++ [persistRow p1 a self ch m] :=
    persistVia_fresh p1 hkeep hfresh
  have hdup : hasId (store ++ [persistRow p1 a self ch m]) m.id = true := by
    rw [hasId_append]
    simp [persistRow_id]
  have h2 : persistVia p2 a self ch m (store ++ [persistRow p1 a self ch m])
      = store ++ [persistRow p1 a self ch m] := persistVia_dup p2 hdup
  rw [h1, h2]
  constructor
  · rw [countPair_append, countPair_eq_zero hfresh]
    simp [persistRow_account, persistRow_id]
  · intro hu
    apply uniqueIds_append _ hu
    rw [persistRow_id]
    exact hfresh

/-- Witness for C1: live delivery followed by a history-import re-observation
of the same message stores exactly one row. -/
theorem dedupe_idempotence_witness :
    countPair (persistVia PersistPath.importer "a1" "self1" sampleChannel sampleMsg
        (persistVia PersistPath.live "a1" "self1" sampleChannel sampleMsg [])) "a1" "m1" = 1
    ∧ (uniqueIds [] →
        uniqueIds (persistVia PersistPath.importer "a1" "self1" sampleChannel sampleMsg
          (persistVia PersistPath.live "a1" "self1" sampleChannel sampleMsg []))) :=
  dedupe_idempotence PersistPath.live PersistPath.importer "a1" "self1" sampleChannel
    sampleMsg [] (by decide) (by decide) (by decide)

/-! ## C2: what actually happens on a uniqueness-constraint violation -/

/-- C2 counterexample: a persist through the live path (`recordMessage`)
whose insert is rejected by the uniqueness constraint does NOT return a
Skipped-style normal outcome — it raises the storage error to its caller
(`if (error) throw error`), refuting the claim at this concrete input. -/
theorem constraint_violation_raises :
    recordMessage "a1" "self1" sampleChannel sampleMsg
        [recordMessageRow "a1" "self1" sampleChannel sampleMsg]
      = Except.error InsertError.uniqueViolation := by
  rfl

/-- C2 (amended): a uniqueness-rejected insert never writes a second row, but
the two paths surface it differently: `recordMessage` throws the error to its
caller (the `messageCreate` handler then catches and logs it, leaving the
store unchanged), while the history-import loop logs the error and skips the
message.  Only the import path's explicit dedupe check yields a silent skip. -/
theorem constraint_violation_behavior (a self : String) (ch : Channel)
    (m : DiscordMessage) (store : Store) (h : hasId store m.id = true) :
    recordMessage a self ch m store = Except.error InsertError.uniqueViolation
    ∧ recordMessageCaught a self ch m store = store
    ∧ importStep a self ch m store = store :=
  ⟨recordMessage_dup h, recordMessageCaught_dup h, importStep_dup h⟩

/-- Witness for the amended C2 at a store already holding the message id. -/
theorem constraint_violation_behavior_witness :
    recordMessage "a2" "self1" sampleChannel sampleMsg
        [recordMessageRow "a1" "self1" sampleChannel sampleMsg]
      = Except.error InsertError.uniqueViolation
    ∧ recordMessageCaught "a2" "self1" sampleChannel sampleMsg
        [recordMessageRow "a1" "self1" sampleChannel sampleMsg]
      = [recordMessageRow "a1" "self1" sampleChannel sampleMsg]
    ∧ importStep "a2" "self1" sampleChannel sampleMsg
        [recordMessageRow "a1" "self1" sampleChannel sampleMsg]
      = [recordMessageRow "a1" "self1" sampleChannel sampleMsg] :=
  constraint_violation_behavior "a2" "self1" sampleChannel sampleMsg
    [recordMessageRow "a1" "self1" sampleChannel sampleMsg] (by decide)

/-! ## C3: chronological import -/

theorem importRow_timestamp (a self : String) (ch : Channel) (m : DiscordMessage) :
    (importRow a self ch m).timestamp = m.createdAt := by
  simp [importRow]

theorem foldl_importStep (a self : String) (ch : Channel)
    (l : List DiscordMessage) :
    ∀ s : Store, (∀ m ∈ l, hasId s m.id = false) →
      l.Pairwise (fun x y => x.id ≠ y.id) →
      l.foldl (fun st m => importStep a self ch m st) s
        = s ++ (l.filter keepInImport).map (importRow a self ch) := by
  induction l with
  | nil => intro s _ _; simp
  | cons m tl ih =>
    intro s hfresh hpair
    rcases List.pairwise_cons.mp hpair with ⟨hm, htl⟩
    cases hkeep : keepInImport m with
    | false =>
      rw [List.foldl_cons, importStep_skip hkeep,
        ih s (fun m' hm' => hfresh m' (List.mem_cons_of_mem _ hm')) htl]
      simp [List.filter_cons, hkeep]
    | true =>
      have hf : hasId s m.id = false := hfresh m (List.mem_cons_self _ _)
      have hfresh' : ∀ m' ∈ tl, hasId (s ++ [importRow a self ch m]) m'.id = false := by
        intro m' hm'
        rw [hasId_append]
        have h1 : hasId s m'.id = false := hfresh m' (List.mem_cons_of_mem _ hm')
        have h2 : m.id ≠ m'.id := hm m' hm'
        simp [h1, importRow_id, h2]
      rw [List.foldl_cons, importStep_fresh hkeep hf, ih _ hfresh' htl]
      simp [List.filter_cons, hkeep]

/-- C3: a history page delivered newest-first is persisted oldest-first, so
the stored rows for the conversation are exactly the page's non-skipped
messages in chronological order, and reading them back ordered by timestamp
ascending reproduces true chronological order. -/
theorem chronological_import (a self : String) (ch : Channel)
    (page : List DiscordMessage)
    (hdesc : page.Sorted (fun x y => y.createdAt ≤ x.createdAt))
    (hids : page.Pairwise (fun x y => x.id ≠ y.id)) :
    processChannel a self ch page []
      = (page.reverse.filter keepInImport).map (importRow a self ch)
    ∧ (processChannel a self ch page []).Sorted
        (fun r s => r.timestamp ≤ s.timestamp) := by
  have hids' : page.reverse.Pairwise (fun x y => x.id ≠ y.id) :=
    List.pairwise_reverse.mpr (hids.imp (fun h => Ne.symm h))
  have heq : processChannel a self ch page []
      = (page.reverse.filter keepInImport).map (importRow a self ch) := by
    rw [processChannel,
      foldl_importStep a self ch page.reverse [] (by simp [hasId]) hids']
    simp
  refine ⟨heq, ?_⟩
  rw [heq]
  have hasc : page.reverse.Pairwise (fun x y => x.createdAt ≤ y.createdAt) :=
    List.pairwise_reverse.mpr hdesc
  rw [List.Sorted, List.pairwise_map]
  simp only [importRow_timestamp]
  exact List.Pairwise.filter _ hasc

/-- A second sample message, newer than `sampleMsg` and authored by the
session itself. -/
def sampleMsg2 : DiscordMessage :=
  { id := "m2", authorId := "self1", authorUsername := "me", authorAvatar := none
    content := "yo", system := false, createdAt := 200 }

/-- Witness for C3 on a concrete two-message page delivered newest-first. -/
theorem chronological_import_witness :
    processChannel "a1" "self1" sampleChannel [sampleMsg2, sampleMsg] []
      = ([sampleMsg2, sampleMsg].reverse.filter keepInImport).map
          (importRow "a1" "self1" sampleChannel)
    ∧ (processChannel "a1" "self1" sampleChannel [sampleMsg2, sampleMsg] []).Sorted
        (fun r s => r.timestamp ≤ s.timestamp) :=
  chronological_import "a1" "self1" sampleChannel [sampleMsg2, sampleMsg]
    (by decide) (by decide)

/-! ## C5: send-and-record -/

theorem sentRow_id (accountId : String) (recipient : User) (payload : SentPayload)
    (now : Nat) : (sentRow accountId recipient payload now).discord_message_id = payload.id := by
  simp [sentRow]

theorem find?_map_replace (ch : Channel) :
    ∀ cs : List Channel, cs.any (fun c => c.id = ch.id) = true →
      (cs.map (fun c => if c.id = ch.id then ch else c)).find? (fun c => c.id = ch.id)
        = some ch := by
  intro cs
  induction cs with
  | nil => intro h; simp at h
  | cons c tl ih =>
    intro h
    by_cases hc : c.id = ch.id
    · simp [hc]
    · have htl : tl.any (fun c => c.id = ch.id) = true := by
        simpa [List.any_cons, hc] using h
      simpa [hc] using ih htl

theorem find?_cacheChannel (cs : List Channel) (ch : Channel) :
    (cacheChannel cs ch).find? (fun c => c.id = ch.id) = some ch := by
  unfold cacheChannel
  split
  · rename_i hany
    exact find?_map_replace ch cs (by simpa using hany)
  · rename_i hany
    have hnone : cs.find? (fun c => c.id = ch.id) = none := by
      rw [List.find?_eq_none]
      intro c hc
      simp only [decide_eq_true_eq]
      intro hEq
      exact hany (by simp [List.any_eq_true]; exact ⟨c, hc, hEq⟩)
    rw [List.find?_append, hnone]
    simp

theorem recordSentMessage_found {accountId : String} {channels : List Channel}
    {payload : SentPayload} {channelId : String} {now : Nat} {store : Store}
    {ch : Channel} (hfind : channels.find? (fun c => c.id = channelId) = some ch)
    (hdm : ch.type = ChannelType.DM) (hfresh : hasId store payload.id = false) :
    recordSentMessage accountId channels payload channelId now store
      = .ok (store ++ [sentRow accountId ch.recipient payload now]) := by
  have hrow : hasId store (sentRow accountId ch.recipient payload now).discord_message_id
      = false := by rw [sentRow_id]; exact hfresh
  simp [recordSentMessage, hfind, hdm, insertMessage_fresh hrow]

theorem botSendMessage_success {accountId : String} {channels : List Channel}
    {channelId content : String} {payload : SentPayload} {now : Nat} {store : Store}
    {ch : Channel} (hfind : channels.find? (fun c => c.id = channelId) = some ch)
    (hdm : ch.type = ChannelType.DM) (hfresh : hasId store payload.id = false) :
    botSendMessage accountId channels channelId content
        (SendResponse.success payload) now store
      = Except.ok ({ messageId := payload.id, content := payload.content },
          store ++ [sentRow accountId ch.recipient payload now]) := by
  simp [botSendMessage, recordSentMessage_found hfind hdm hfresh]

/-- C5 (amended): a successful `sendMessage(accountId, userId, content)`
returns the backend-assigned message id with the echoed content and — when
the store does not already hold a row with that remote id — also persists a
`sent`-direction Message for that account, peer and content.  (The
unamended claim fails because a rejected insert is caught and logged inside
`sendMessage`, leaving the call successful with no row written; see the
counterexample.) -/
theorem send_and_record (bots : Registry) (accountId userId content : String)
    (bot : BotState) (username : String) (avatar : Option String)
    (dmChannelId : String) (payload : SentPayload) (now : Nat) (store : Store)
    (hbot : bots.find? (fun b => b.1 = accountId) = some (accountId, bot))
    (hfresh : hasId store payload.id = false) :
    managerSendMessage bots accountId userId content
        (FetchDM.found username avatar dmChannelId)
        (SendResponse.success payload) now store
      = Except.ok ({ messageId := payload.id, content := payload.content },
          store ++ [sentRow accountId
            { id := userId, username := username, avatar := avatar } payload now]) := by
  have hfind := find?_cacheChannel bot.channels
    { id := dmChannelId, type := ChannelType.DM
      recipient := { id := userId, username := username, avatar := avatar } }
  simp [managerSendMessage, hbot, botSendMessage_success hfind rfl hfresh]

/-- C5 counterexample: with a row for remote id `"m2"` already stored,
`sendMessage` still succeeds and returns `{messageId := "m2", content :=
"hello"}`, but the rejected insert is swallowed and the store afterwards
contains no `sent`-direction Message for `("a1", "m2")` — refuting the
unamended claim at this concrete input. -/
theorem send_without_record :
    managerSendMessage [("a1", sampleBot)] "a1" "peer1" "hello"
        (FetchDM.found "alice" none "chan1")
        (SendResponse.success { id := "m2", content := "hello", timestamp := some 200 })
        300
        [{ account_id := "a1", discord_message_id := "m2", discord_user_id := "peer1",
           username := "alice", avatar := none, direction := Direction.received,
           content := "old", timestamp := 50 }]
      = Except.ok ({ messageId := "m2", content := "hello" },
          [{ account_id := "a1", discord_message_id := "m2", discord_user_id := "peer1",
             username := "alice", avatar := none, direction := Direction.received,
             content := "old", timestamp := 50 }])
    ∧ hasSentMessage
        [{ account_id := "a1", discord_message_id := "m2", discord_user_id := "peer1",
           username := "alice", avatar := none, direction := Direction.received,
           content := "old", timestamp := 50 }] "a1" "m2" = false := by
  exact ⟨rfl, rfl⟩

/-- Witness for the amended C5: on a fresh remote id the send returns the
backend id and echoed content and appends the `sent` row. -/
theorem send_and_record_witness :
    managerSendMessage [("a1", sampleBot)] "a1" "peer1" "hello"
        (FetchDM.found "alice" none "chan1")
        (SendResponse.success { id := "m2", content := "hello", timestamp := some 200 })
        300 []
      = Except.ok ({ messageId := "m2", content := "hello" },
          [] ++ [sentRow "a1" { id := "peer1", username := "alice", avatar := none }
            { id := "m2", content := "hello", timestamp := some 200 } 300]) :=
  send_and_record [("a1", sampleBot)] "a1" "peer1" "hello" sampleBot "alice" none
    "chan1" { id := "m2", content := "hello", timestamp := some 200 } 300 []
    (by decide) (by decide)

/-! ## C8: rate limiting is surfaced distinctly -/

theorem toString_nat (n : Nat) : toString n = Nat.repr n := rfl

theorem length_data (s : String) : s.data.length = s.length := rfl

set_option maxHeartbeats 1000000 in
set_option maxRecDepth 10000 in
theorem repr_len3 : ∀ s : Nat, s < 1000 → 100 ≤ s → (Nat.repr s).length = 3 := by
  decide

set_option maxHeartbeats 1000000 in
set_option maxRecDepth 10000 in
theorem repr_ne_429 : ∀ s : Nat, s < 1000 → s ≠ 429 → Nat.repr s ≠ Nat.repr 429 := by
  decide

theorem apiErrorMessage_429_ne (s : Nat) (m1 m2 : String)
    (hlo : 100 ≤ s) (hhi : s < 1000) (hne : s ≠ 429) :
    apiErrorMessage 429 m1 ≠ apiErrorMessage s m2 := by
  intro heq
  have hd := congrArg String.data heq
  simp only [apiErrorMessage, toString_nat, String.data_append, List.append_assoc] at hd
  have hd2 := List.append_cancel_left hd
  have hlen : (Nat.repr 429).data.length = (Nat.repr s).data.length := by
    rw [length_data, length_data, repr_len3 429 (by norm_num) (by norm_num),
      repr_len3 s hhi hlo]
  obtain ⟨hrepr, -⟩ := List.append_inj hd2 hlen
  exact repr_ne_429 s hhi hne (String.ext hrepr).symm

/-- C8: a rate-limited backend response (HTTP status 429) surfaces to the
`sendMessage` caller as the error `Discord API error 429: ...`, which is
distinct from the error surfaced for any other failing status (a generic
transient send failure), so the two are distinguishable. -/
theorem rate_limited_distinct (accountId : String) (channels : List Channel)
    (channelId content : String) (now : Nat) (store : Store)
    (s : Nat) (m1 m2 : String) (hlo : 100 ≤ s) (hhi : s < 1000) (hne : s ≠ 429) :
    botSendMessage accountId channels channelId content
        (SendResponse.failure 429 m1) now store
      = Except.error (apiErrorMessage 429 m1)
    ∧ botSendMessage accountId channels channelId content
        (SendResponse.failure s m2) now store
      = Except.error (apiErrorMessage s m2)
    ∧ apiErrorMessage 429 m1 ≠ apiErrorMessage s m2 :=
  ⟨rfl, rfl, apiErrorMessage_429_ne s m1 m2 hlo hhi hne⟩

/-- Witness for C8: a 429 response versus a 500 response. -/
theorem rate_limited_distinct_witness :
    botSendMessage "a1" [] "chan1" "hello"
        (SendResponse.failure 429 "You are being rate limited.") 0 []
      = Except.error (apiErrorMessage 429 "You are being rate limited.")
    ∧ botSendMessage "a1" [] "chan1" "hello"
        (SendResponse.failure 500 "Internal Server Error") 0 []
      = Except.error (apiErrorMessage 500 "Internal Server Error")
    ∧ apiErrorMessage 429 "You are being rate limited."
        ≠ apiErrorMessage 500 "Internal Server Error" :=
  rate_limited_distinct "a1" [] "chan1" "hello" 0 [] 500
    "You are being rate limited." "Internal Server Error"
    (by norm_num) (by norm_num) (by norm_num)

/-! ## C9: NotFound exactly when the account has no session -/

/-- C9: `BotManager.sendMessage` fails with the `No bot found` error exactly
when no bot is registered for the account id; with a registered bot every
outcome is success or a different error (fetch/send failure), never
NotFound. -/
theorem sendMessage_notFound_iff (bots : Registry) (accountId userId content : String)
    (fetch : FetchDM) (response : SendResponse) (now : Nat) (store : Store) :
    (∃ x, managerSendMessage bots accountId userId content fetch response now store
        = Except.error (ManagerError.notFound x))
    ↔ hasBot bots accountId = false := by
  constructor
  · rintro ⟨x, hx⟩
    cases hfind : bots.find? (fun b => b.1 = accountId) with
    | none =>
      rw [hasBot_false_iff]
      intro b hb
      have := List.find?_eq_none.mp hfind b hb
      simpa using this
    | some b =>
      obtain ⟨k, bot⟩ := b
      cases fetch with
      | failed msg =>
        simp [managerSendMessage, hfind] at hx
      | found username avatar dmChannelId =>
        cases response with
        | failure st msg =>
          simp [managerSendMessage, hfind, botSendMessage] at hx
        | success payload =>
          simp [managerSendMessage, hfind, botSendMessage] at hx
  · intro h
    exact ⟨accountId, by simp [managerSendMessage, find?_bot_none h]⟩

end DiscordCRM
